import Mathlib

/-!
Shallow embedding of the GeoDashboard pipeline (src/app.py).

The script is linear: purge the scratch directory, guard against empty
selections, then for each selected metric run fetch → normalize → chart →
trend → per-year frames → GIF/MP4 assembly, with a per-metric try/except.
External collaborators (the wbdata provider, plotly image writing, moviepy
encoding, streamlit widgets) are modelled by an explicit environment of
fallible calls; everything the script itself does is embedded directly.
-/

namespace GeoDashboard

/-- A raw observation row of the provider response (wbdata.get_dataframe
after reset_index): country name, observation year (convert_date=True yields
annual timestamps, of which only the year is consumed), and a possibly-null
value. Values are modelled as rationals. -/
structure RawRow where
  country : String
  year : Int
  value : Option ℚ
  deriving DecidableEq, Repr

/-- A normalized Metric Table row after dropna, Year derivation and the
country → Country rename (src/app.py lines 123-125): non-null value only. -/
structure Obs where
  Country : String
  Year : Int
  value : ℚ
  deriving DecidableEq, Repr

/-- The indicator catalog (src/app.py lines 77-82). -/
def metrics : List (String × String) :=
  [("CO₂ Emissions (metric tons per capita)", "EN.ATM.CO2E.PC"),
   ("GDP per Capita (current US$)", "NY.GDP.PCAP.CD"),
   ("Population", "SP.POP.TOTL"),
   ("Life Expectancy", "SP.DYN.LE00.IN")]

/-- Catalog lookup, `metrics[metric_name]` (line 115). Selected metric names
always come from the catalog keys, so the default is never reached there. -/
def metricCode (name : String) : String :=
  (metrics.lookup name).getD ("")

/-- start_date = datetime(2000,1,1), modelled by its year (line 98). -/
def start_date : Int := 2000

/-- end_date = datetime(2022,1,1), modelled by its year (line 99). -/
def end_date : Int := 2022

/-- Model of the external provider call wbdata.get_dataframe(indicators,
country=iso_list, data_date=(s,e), convert_date=True) (lines 118-123): per the
provider interface it returns the rows of the provider dataset belonging to
the requested countries whose observation date lies in the inclusive range. -/
def wbdata_get_dataframe (providerData : List RawRow) (country : List String)
    (s e : Int) : List RawRow :=
  providerData.filter fun r =>
    decide (r.country ∈ country) && decide (s ≤ r.year) && decide (r.year ≤ e)

/-- The normalization chain of lines 123-125: `.dropna()` removes rows with a
null value, `df['Year'] = df['date'].dt.year` exposes the year, and
`rename(columns={'country':'Country'})` renames the country field. -/
def dropnaRename (rows : List RawRow) : List Obs :=
  rows.filterMap fun r =>
    r.value.map fun v => { Country := r.country, Year := r.year, value := v }

/-- The full fetch step: provider call followed by normalization. -/
def fetchTable (providerData : List RawRow) (country : List String)
    (s e : Int) : List Obs :=
  dropnaRename (wbdata_get_dataframe providerData country s e)

/-- The pieces of a px.choropleth figure the spec talks about: the data slice,
the location/color columns, the continuous color scale, the layout template
and the title. -/
structure Fig where
  data : List Obs
  locations : String
  color : String
  scale : String
  template : String
  title : String
  deriving DecidableEq, Repr

/-- px.colors.sequential.Viridis, as an opaque scale name. -/
def Viridis : String := "Viridis"

/-- px.colors.sequential.Plasma, as an opaque scale name. -/
def Plasma : String := "Plasma"

/-- The full-range animated choropleth of lines 131-151. -/
def animatedFig (theme name : String) (df : List Obs) : Fig :=
  { data := df
    locations := "Country"
    color := name
    scale := if theme = "Dark" then Viridis else Plasma
    template := if theme = "Dark" then "plotly_dark" else "plotly_white"
    title := name ++ " (2000–2022)" }

/-- The per-year static choropleth frame of lines 164-177. -/
def frameFig (theme name : String) (yr : Int) (dfx : List Obs) : Fig :=
  { data := dfx
    locations := "Country"
    color := name
    scale := if theme = "Dark" then Viridis else Plasma
    template := if theme = "Dark" then "plotly_dark" else "plotly_white"
    title := name ++ " — " ++ toString yr }

/-- `years = sorted(df['Year'].unique())` (line 160): the distinct years of
the table in ascending order. -/
def sortedUniqueYears (df : List Obs) : List Int :=
  List.insertionSort (· ≤ ·) (df.map (·.Year)).dedup

/-- FRAME_DIR = "frame" (line 102). -/
def FRAME_DIR : String := "frame"

/-- The per-frame output path of line 178. -/
def framePath (code : String) (yr : Int) : String :=
  FRAME_DIR ++ "/" ++ code ++ "_" ++ toString yr ++ ".png"

/-- The environment of external calls a run makes: the startup country
directory, the provider fetch keyed by indicator code and country ids
(raising = Except.error), and the fallible image write / video encode calls
keyed by output path (raising = some message). -/
structure Env where
  countryDir : List (String × String)
  fetch : String → List String → Except String (List RawRow)
  writeImage : String → Option String
  encode : String → Option String

/-- A successfully rendered per-metric section: the on-screen animated chart,
the per-year frames in loop order as (year, path, figure), and the two
assembled artifacts with the frame rate each was encoded at (lines 182-188
pass the same fps to ImageSequenceClip, write_gif and write_videofile). -/
structure Rendered where
  name : String
  chart : Fig
  frames : List (Int × String × Fig)
  gifPath : String
  mp4Path : String
  gifFps : Nat
  mp4Fps : Nat
  deriving DecidableEq, Repr

/-- The user-visible outcome of one metric iteration: st.error (line 211),
st.warning (line 128), or a fully rendered section. -/
inductive MetricOutcome where
  | error : String → MetricOutcome
  | warning : String → MetricOutcome
  | rendered : Rendered → MetricOutcome
  deriving DecidableEq, Repr

/-- The st.error message of line 211. -/
def errWith (name e : String) : String :=
  "❌ Error with " ++ name ++ ": " ++ e

/-- The frame loop of lines 160-180: for each year, write the frame image
(pio.write_image may raise, aborting the metric) and record the frame.
Returns the paths written before any failure together with either the raised
message or the completed frame list. -/
def writeFrames (env : Env) (theme name code : String) (df : List Obs) :
    List Int → List String × Except String (List (Int × String × Fig))
  | [] => ([], Except.ok [])
  | yr :: rest =>
    let path := framePath code yr
    match env.writeImage path with
    | some e => ([], Except.error e)
    | none =>
      let (ws, r) := writeFrames env theme name code df rest
      (path :: ws,
        match r with
        | Except.error e => Except.error e
        | Except.ok l =>
          Except.ok ((yr, path,
            frameFig theme name yr (df.filter fun o => decide (o.Year = yr))) :: l))

/-- One iteration of the `for metric_name in selected_metrics` loop
(lines 114-211), within its try/except. Returns the user-visible outcome and
the list of files the iteration created in the scratch directory. -/
def processMetric (env : Env) (theme : String) (fps : Nat) (iso : List String)
    (name : String) : MetricOutcome × List String :=
  let code := metricCode name
  match env.fetch code iso with
  | Except.error e => (MetricOutcome.error (errWith name e), [])
  | Except.ok raw =>
    let df := dropnaRename raw
    if df = [] then (MetricOutcome.warning ("No data for " ++ name ++ "."), [])
    else
      let chart := animatedFig theme name df
      let years := sortedUniqueYears df
      let (written, res) := writeFrames env theme name code df years
      match res with
      | Except.error e => (MetricOutcome.error (errWith name e), written)
      | Except.ok frames =>
        let gifP := FRAME_DIR ++ "/" ++ code ++ ".gif"
        let mp4P := FRAME_DIR ++ "/" ++ code ++ ".mp4"
        match env.encode gifP with
        | some e => (MetricOutcome.error (errWith name e), written)
        | none =>
          match env.encode mp4P with
          | some e => (MetricOutcome.error (errWith name e), written ++ [gifP])
          | none =>
            (MetricOutcome.rendered
              { name := name
                chart := chart
                frames := frames
                gifPath := gifP
                mp4Path := mp4P
                gifFps := fps
                mp4Fps := fps },
              written ++ [gifP, mp4P])

/-- The outcome component of one metric iteration. -/
def metricOutcome (env : Env) (theme : String) (fps : Nat) (iso : List String)
    (name : String) : MetricOutcome :=
  (processMetric env theme fps iso name).1

/-- The whole selected_metrics loop, threading the scratch-directory contents:
each iteration appends the files it wrote. -/
def runMetrics (env : Env) (theme : String) (fps : Nat) (iso : List String) :
    List String → List String → List MetricOutcome × List String
  | [], fs => ([], fs)
  | m :: ms, fs =>
    let (o, w) := processMetric env theme fps iso m
    let (os, fs') := runMetrics env theme fps iso ms (fs ++ w)
    (o :: os, fs')

/-- Python str.lower(), characterwise over the file name. -/
def pyLower (s : String) : String := String.mk (s.data.map Char.toLower)

/-- Python str.endswith(suffix), over the character lists. -/
def pyEndsWith (s suffix : String) : Bool := suffix.data.isSuffixOf s.data

/-- fname.lower().endswith((".png",".gif",".mp4")) (line 105). -/
def isArtifactFile (f : String) : Bool :=
  pyEndsWith (pyLower f) (".png") || pyEndsWith (pyLower f) (".gif")
    || pyEndsWith (pyLower f) (".mp4")

/-- The scratch-directory purge of lines 104-106: every image/video file is
removed; anything else survives. -/
def cleanupFrameDir (fs : List String) : List String :=
  fs.filter fun f => !(isArtifactFile f)

/-- iso_list = [iso_map[c] for c in selected_countries if c in iso_map]
(line 112): names absent from the directory are silently dropped. -/
def resolveCountries (dir : List (String × String)) (names : List String) :
    List String :=
  names.filterMap fun c => dir.lookup c

/-- The guarded main body (lines 109-211), starting from an already purged
scratch directory: with an empty selection only the warning of line 110 is
shown and nothing runs; otherwise the metric loop runs. -/
def mainBody (env : Env) (cs ms : List String) (theme : String) (fps : Nat)
    (fs0 : List String) : List MetricOutcome × List String :=
  if cs = [] ∨ ms = [] then
    ([MetricOutcome.warning ("Please select at least one country and one metric.")], fs0)
  else
    runMetrics env theme fps (resolveCountries env.countryDir cs) ms fs0

/-- One full run of the script body: purge the scratch directory (lines
102-106), then the guarded main body. -/
def mainRun (env : Env) (cs ms : List String) (theme : String) (fps : Nat)
    (fs : List String) : List MetricOutcome × List String :=
  mainBody env cs ms theme fps (cleanupFrameDir fs)

/-- Model of the external st.slider("Animation FPS", 1, 5, 2) widget
(line 95): whatever the interaction, the returned value is the user's choice
clamped to the inclusive widget range; with no interaction the choice is the
default 2. -/
def st_slider (lo hi choice : Nat) : Nat := max lo (min hi choice)

/-- A placeholder figure, used only as the default of extractors below. -/
def emptyFig : Fig :=
  { data := [], locations := "", color := "", scale := "", template := "", title := "" }

/-- A placeholder rendered section, used only as the default of extractors. -/
def emptyRendered : Rendered :=
  { name := "", chart := emptyFig, frames := [], gifPath := "", mp4Path := "",
    gifFps := 0, mp4Fps := 0 }

/-- Extract the rendered section of an outcome (placeholder otherwise). -/
def theRendered : MetricOutcome → Rendered
  | MetricOutcome.rendered r => r
  | _ => emptyRendered

/-- Extract the frame list of a rendered outcome. -/
def renderedFrames : MetricOutcome → Option (List (Int × String × Fig))
  | MetricOutcome.rendered r => some r.frames
  | _ => none

/-- The provider response used by the concrete test environment: one
Pakistan observation, year 2000, value 5. -/
def pakRaw : List RawRow :=
  [{ country := "Pakistan", year := 2000, value := some 5 }]

/-- A concrete fully-successful environment: the provider answers every fetch
with pakRaw and no external call raises. -/
def envPak : Env :=
  { countryDir := [("Pakistan", "PAK")]
    fetch := fun _ _ => Except.ok pakRaw
    writeImage := fun _ => none
    encode := fun _ => none }

/-- The metric name used in concrete instantiations. -/
def gdpName : String := "GDP per Capita (current US$)"

/-- A concrete environment in which the Population fetch raises and every
other external call succeeds. -/
def envFail : Env :=
  { countryDir := [("Pakistan", "PAK")]
    fetch := fun code _ =>
      if code = "SP.POP.TOTL" then Except.error ("boom") else Except.ok pakRaw
    writeImage := fun _ => none
    encode := fun _ => none }

/-- The outcome list of the metric loop is exactly the per-metric outcome of
each selected metric: it does not depend on the scratch-directory state nor
on what happened to any other metric. -/
theorem runMetrics_fst (env : Env) (theme : String) (fps : Nat)
    (iso : List String) :
    ∀ (ms : List String) (fs : List String),
      (runMetrics env theme fps iso ms fs).1
        = ms.map (metricOutcome env theme fps iso) := by
  intro ms
  induction ms with
  | nil => intro fs; rfl
  | cons m rest ih =>
    intro fs
    simpa [runMetrics, metricOutcome]
      using ih (fs ++ (processMetric env theme fps iso m).2)

/-- Every error outcome a metric iteration can produce is the st.error
message of line 211, which interpolates the metric name. -/
theorem metricOutcome_error_shape (env : Env) (theme : String) (fps : Nat)
    (iso : List String) (name msg : String)
    (h : metricOutcome env theme fps iso name = MetricOutcome.error msg) :
    ∃ e, msg = errWith name e := by
  simp only [metricOutcome, processMetric] at h
  split at h
  · exact ⟨_, (MetricOutcome.error.injEq _ _ ▸ h).symm⟩
  · split at h
    · cases h
    · split at h
      · exact ⟨_, (MetricOutcome.error.injEq _ _ ▸ h).symm⟩
      · split at h
        · exact ⟨_, (MetricOutcome.error.injEq _ _ ▸ h).symm⟩
        · split at h
          · exact ⟨_, (MetricOutcome.error.injEq _ _ ▸ h).symm⟩
          · cases h

/-- C1: a failure anywhere in one metric's pipeline (fetch, frame rendering,
encoding) leaves every other selected metric's outcome untouched — the loop
outcome list is the independent per-metric outcome of each metric — and any
error message shown for a failing metric interpolates that metric's name. -/
theorem metric_failure_isolated_and_named (env : Env) (theme : String)
    (fps : Nat) (iso : List String) (ms : List String) (fs : List String) :
    (runMetrics env theme fps iso ms fs).1
        = ms.map (metricOutcome env theme fps iso) ∧
      ∀ name msg, metricOutcome env theme fps iso name = MetricOutcome.error msg →
        ∃ pre post, msg = pre ++ name ++ post := by
  refine ⟨runMetrics_fst env theme fps iso ms fs, fun name msg h => ?_⟩
  obtain ⟨e, he⟩ := metricOutcome_error_shape env theme fps iso name msg h
  refine ⟨"❌ Error with ", ": " ++ e, ?_⟩
  rw [he, errWith, String.append_assoc]

/-- Witness for C1: with the Population fetch raising and GDP succeeding, the
loop still produces both outcomes independently and the error names
Population. -/
theorem metric_failure_isolated_and_named_witness :
    (runMetrics envFail ("Light") 2 (["PAK"])
        (["Population", "GDP per Capita (current US$)"]) []).1
        = ["Population", "GDP per Capita (current US$)"].map
            (metricOutcome envFail ("Light") 2 (["PAK"])) ∧
      ∃ pre post, errWith ("Population") ("boom") = pre ++ "Population" ++ post := by
  have h := metric_failure_isolated_and_named envFail ("Light") 2 (["PAK"])
    (["Population", "GDP per Capita (current US$)"]) []
  exact ⟨h.1, h.2 ("Population") (errWith ("Population") ("boom")) (by decide)⟩

/-- C2: every row of the table the fetch step returns has its Year within the
inclusive requested range, a non-null value (the value field carries the
payload of a some), and its Country field is the provider row's country
carried over by the rename. -/
theorem fetchTable_rows_valid (providerData : List RawRow) (iso : List String)
    (s e : Int) (_hiso : iso ≠ []) :
    ∀ o ∈ fetchTable providerData iso s e,
      (s ≤ o.Year ∧ o.Year ≤ e) ∧
        ∃ r ∈ providerData, r.country = o.Country ∧ r.value = some o.value := by
  intro o ho
  simp only [fetchTable, dropnaRename, wbdata_get_dataframe, List.mem_filterMap,
    List.mem_filter, Bool.and_eq_true, decide_eq_true_eq] at ho
  obtain ⟨r, ⟨hrmem, ⟨hmem, hs⟩, he⟩, hv⟩ := ho
  rcases hval : r.value with _ | v
  · rw [hval] at hv; cases hv
  · rw [hval] at hv
    simp only [Option.map_some'] at hv
    cases hv
    exact ⟨⟨hs, he⟩, r, hrmem, rfl, hval⟩

/-- Witness for C2 at a concrete provider dataset, country set and range. -/
theorem fetchTable_rows_valid_witness :
    ((["Pakistan"] : List String) ≠ []) ∧
      ∀ o ∈ fetchTable pakRaw ["Pakistan"] 2000 2022,
        (2000 ≤ o.Year ∧ o.Year ≤ 2022) ∧
          ∃ r ∈ pakRaw, r.country = o.Country ∧ r.value = some o.value :=
  ⟨by decide, fetchTable_rows_valid pakRaw ["Pakistan"] 2000 2022 (by decide)⟩

/-- C6: if the provider response has pairwise-distinct (country, year) pairs
— one observation per country and year, the provider interface's shape —
then the fetched Metric Table has pairwise-distinct (Country, Year) pairs,
so the pivot of line 157 has one value per cell. -/
theorem fetchTable_country_year_unique (providerData : List RawRow)
    (iso : List String) (s e : Int)
    (h : providerData.Pairwise fun a b => ¬(a.country = b.country ∧ a.year = b.year)) :
    (fetchTable providerData iso s e).Pairwise
      fun a b => ¬(a.Country = b.Country ∧ a.Year = b.Year) := by
  have hfilt : (wbdata_get_dataframe providerData iso s e).Pairwise
      (fun a b => ¬(a.country = b.country ∧ a.year = b.year)) :=
    List.Pairwise.sublist (List.filter_sublist _) h
  refine List.Pairwise.filterMap _ ?_ hfilt
  intro a b hR x hx y hy
  rcases hva : a.value with _ | va
  · rw [hva] at hx; cases hx
  · rcases hvb : b.value with _ | vb
    · rw [hvb] at hy; cases hy
    · rw [hva] at hx; rw [hvb] at hy
      simp only [Option.map_some', Option.mem_def, Option.some.injEq] at hx hy
      cases hx; cases hy
      simpa using hR

/-- The distinct years of a table, ascending, never repeat. -/
theorem sortedUniqueYears_nodup (df : List Obs) : (sortedUniqueYears df).Nodup :=
  (List.perm_insertionSort _ _).nodup_iff.2 (List.nodup_dedup _)

/-- The distinct years of a table are strictly ascending. -/
theorem sortedUniqueYears_sorted_lt (df : List Obs) :
    (sortedUniqueYears df).Sorted (· < ·) :=
  (List.sorted_insertionSort _ _).lt_of_le (sortedUniqueYears_nodup df)

/-- Membership in the year list is presence of that year in the table. -/
theorem mem_sortedUniqueYears (df : List Obs) (y : Int) :
    y ∈ sortedUniqueYears df ↔ ∃ o ∈ df, o.Year = y := by
  rw [sortedUniqueYears, (List.perm_insertionSort _ _).mem_iff, List.mem_dedup,
    List.mem_map]

/-- A completed frame loop yields exactly the frames of the year list, in
order: for each year, the frame path of that year and the per-year figure
over the table slice of that year. -/
theorem writeFrames_ok_spec (env : Env) (theme name code : String)
    (df : List Obs) :
    ∀ (years : List Int) (l : List (Int × String × Fig)),
      (writeFrames env theme name code df years).2 = Except.ok l →
      l = years.map fun yr =>
        (yr, framePath code yr,
          frameFig theme name yr (df.filter fun o => decide (o.Year = yr))) := by
  intro years
  induction years with
  | nil =>
    intro l h
    rw [writeFrames] at h
    cases h
    rfl
  | cons yr rest ih =>
    intro l h
    simp only [writeFrames] at h
    cases hw : env.writeImage (framePath code yr) with
    | some e => rw [hw] at h; cases h
    | none =>
      simp only [hw] at h
      rcases hwf : writeFrames env theme name code df rest with ⟨ws, e | l'⟩
      · simp only [hwf] at h
        exact Except.noConfusion h
      · simp only [hwf, Except.ok.injEq] at h
        rw [List.map_cons, ← ih l' (by rw [hwf]), ← h]

/-- The year sequence of a completed frame loop is the year list itself. -/
theorem writeFrames_ok_years (env : Env) (theme name code : String)
    (df : List Obs) (years : List Int) (l : List (Int × String × Fig))
    (h : (writeFrames env theme name code df years).2 = Except.ok l) :
    l.map (·.1) = years := by
  rw [writeFrames_ok_spec env theme name code df years l h, List.map_map]
  simp [Function.comp_def]

/-- Elimination principle for a rendered outcome: it can only arise from a
successful fetch of a non-empty table, a completed frame loop over the sorted
distinct years, and successful GIF and MP4 encodes; the rendered section
records the animated chart, those frames, and the run's fps for both
artifacts. -/
theorem processMetric_rendered_elim (env : Env) (theme : String) (fps : Nat)
    (iso : List String) (name : String) (r : Rendered)
    (h : (processMetric env theme fps iso name).1 = MetricOutcome.rendered r) :
    ∃ raw, env.fetch (metricCode name) iso = Except.ok raw ∧
      dropnaRename raw ≠ [] ∧
      r.chart = animatedFig theme name (dropnaRename raw) ∧
      (writeFrames env theme name (metricCode name) (dropnaRename raw)
          (sortedUniqueYears (dropnaRename raw))).2 = Except.ok r.frames ∧
      r.gifFps = fps ∧ r.mp4Fps = fps ∧ r.name = name := by
  simp only [processMetric] at h
  cases hfetch : env.fetch (metricCode name) iso with
  | error e => rw [hfetch] at h; cases h
  | ok raw =>
    simp only [hfetch] at h
    refine ⟨raw, rfl, ?_⟩
    by_cases hne : dropnaRename raw = []
    · rw [if_pos hne] at h; cases h
    · rw [if_neg hne] at h
      rcases hwf : writeFrames env theme name (metricCode name) (dropnaRename raw)
          (sortedUniqueYears (dropnaRename raw)) with ⟨ws, e | l⟩
      · simp only [hwf] at h
        exact MetricOutcome.noConfusion h
      · simp only [hwf] at h
        cases hg : env.encode (FRAME_DIR ++ "/" ++ metricCode name ++ ".gif") with
        | some e => rw [hg] at h; cases h
        | none =>
          simp only [hg] at h
          cases hm : env.encode (FRAME_DIR ++ "/" ++ metricCode name ++ ".mp4") with
          | some e => rw [hm] at h; cases h
          | none =>
            simp only [hm] at h
            cases h
            exact ⟨hne, rfl, rfl, rfl, rfl, rfl⟩

/-- A concrete environment whose provider returns zero observations. -/
def envEmpty : Env :=
  { countryDir := [("Pakistan", "PAK")]
    fetch := fun _ _ => Except.ok []
    writeImage := fun _ => none
    encode := fun _ => none }

/-- C3: a fetch that yields an empty table after filtering produces exactly
the st.warning of line 128 naming the metric — a warning, never an error —
writes no frame, GIF or MP4 file, and the loop still produces an outcome for
every other selected metric. -/
theorem empty_table_nonfatal (env : Env) (theme : String) (fps : Nat)
    (iso : List String) (name : String) (raw : List RawRow) (ms : List String)
    (fs : List String)
    (hf : env.fetch (metricCode name) iso = Except.ok raw)
    (he : dropnaRename raw = []) :
    processMetric env theme fps iso name
        = (MetricOutcome.warning ("No data for " ++ name ++ "."), []) ∧
      (∀ msg, MetricOutcome.warning ("No data for " ++ name ++ ".")
          ≠ MetricOutcome.error msg) ∧
      (runMetrics env theme fps iso ms fs).1.length = ms.length := by
  refine ⟨?_, fun msg hc => MetricOutcome.noConfusion hc, ?_⟩
  · simp [processMetric, hf, he]
  · rw [runMetrics_fst]; exact List.length_map ms _

/-- Witness for C3: a provider answering with zero observations yields the
warning, no files, and does not shorten the loop. -/
theorem empty_table_nonfatal_witness :
    processMetric envEmpty ("Light") 2 (["PAK"]) gdpName
        = (MetricOutcome.warning ("No data for " ++ gdpName ++ "."), []) ∧
      (∀ msg, MetricOutcome.warning ("No data for " ++ gdpName ++ ".")
          ≠ MetricOutcome.error msg) ∧
      (runMetrics envEmpty ("Light") 2 (["PAK"]) [gdpName, "Population"] []).1.length
        = ([gdpName, "Population"] : List String).length :=
  empty_table_nonfatal envEmpty ("Light") 2 (["PAK"]) gdpName []
    [gdpName, "Population"] [] rfl rfl

/-- C4: the frames of a rendered section — the sequence handed to
ImageSequenceClip and hence to the GIF and MP4 — carry strictly ascending
years. -/
theorem frames_strictly_ascending (env : Env) (theme : String) (fps : Nat)
    (iso : List String) (name : String) (r : Rendered)
    (h : (processMetric env theme fps iso name).1 = MetricOutcome.rendered r) :
    (r.frames.map (·.1)).Sorted (· < ·) := by
  obtain ⟨raw, _, _, _, hwf, _⟩ :=
    processMetric_rendered_elim env theme fps iso name r h
  rw [writeFrames_ok_years env theme name (metricCode name) (dropnaRename raw)
    (sortedUniqueYears (dropnaRename raw)) r.frames hwf]
  exact sortedUniqueYears_sorted_lt (dropnaRename raw)

/-- Witness for C4 at the concrete successful environment. -/
theorem frames_strictly_ascending_witness :
    ((theRendered (processMetric envPak ("Light") 2 (["PAK"]) gdpName).1).frames.map
      (·.1)).Sorted (· < ·) :=
  frames_strictly_ascending envPak ("Light") 2 (["PAK"]) gdpName
    (theRendered (processMetric envPak ("Light") 2 (["PAK"]) gdpName).1) rfl

/-- C5 as stated is false: with the reference range 2000-2022 (23 years) and a
non-empty table whose only observations are for year 2000, the frame loop of
lines 160-180 produces a single frame, one per year present in the table, not
one per year of the selected range. -/
theorem frames_not_one_per_range_year :
    dropnaRename pakRaw ≠ [] ∧
      (renderedFrames (processMetric envPak ("Light") 2 (["PAK"]) gdpName).1).map
          List.length = some 1 ∧
      end_date - start_date + 1 = 23 ∧ (1 : Int) ≠ 23 :=
  ⟨by decide, rfl, by decide, by decide⟩

/-- C5 amended: for every non-empty Metric Table, the Frame Renderer produces
exactly one static map image per distinct year present in the table (each of
which lies in the selected range), not one per year of the range. -/
theorem frames_one_per_present_year (env : Env) (theme : String) (fps : Nat)
    (iso : List String) (name : String) (raw : List RawRow) (r : Rendered)
    (hf : env.fetch (metricCode name) iso = Except.ok raw)
    (h : (processMetric env theme fps iso name).1 = MetricOutcome.rendered r) :
    (r.frames.map (·.1)).Nodup ∧
      ∀ y : Int, y ∈ r.frames.map (·.1) ↔ ∃ o ∈ dropnaRename raw, o.Year = y := by
  obtain ⟨raw', hf', _, _, hwf, _⟩ :=
    processMetric_rendered_elim env theme fps iso name r h
  rw [hf] at hf'
  cases hf'
  rw [writeFrames_ok_years env theme name (metricCode name) (dropnaRename raw)
    (sortedUniqueYears (dropnaRename raw)) r.frames hwf]
  exact ⟨sortedUniqueYears_nodup (dropnaRename raw),
    fun y => mem_sortedUniqueYears (dropnaRename raw) y⟩

/-- Witness for the amended C5 at the concrete one-year table. -/
theorem frames_one_per_present_year_witness :
    ((theRendered (processMetric envPak ("Light") 2 (["PAK"]) gdpName).1).frames.map
        (·.1)).Nodup ∧
      ∀ y : Int,
        y ∈ (theRendered (processMetric envPak ("Light") 2 (["PAK"]) gdpName).1).frames.map
            (·.1)
          ↔ ∃ o ∈ dropnaRename pakRaw, o.Year = y :=
  frames_one_per_present_year envPak ("Light") 2 (["PAK"]) gdpName pakRaw
    (theRendered (processMetric envPak ("Light") 2 (["PAK"]) gdpName).1) rfl rfl

/-- C7: the theme picks one of two fixed, distinct continuous scales —
Viridis for Dark, Plasma otherwise — and within a run the rendered section
applies that same scale to the full-range animated chart and to every
per-year frame. -/
theorem theme_scale_consistent (env : Env) (theme : String) (fps : Nat)
    (iso : List String) (name : String) (r : Rendered)
    (h : (processMetric env theme fps iso name).1 = MetricOutcome.rendered r) :
    r.chart.scale = (if theme = "Dark" then Viridis else Plasma) ∧
      (∀ f ∈ r.frames, f.2.2.scale = r.chart.scale) ∧ Viridis ≠ Plasma := by
  obtain ⟨raw, _, _, hchart, hwf, _⟩ :=
    processMetric_rendered_elim env theme fps iso name r h
  refine ⟨by rw [hchart]; rfl, ?_, by decide⟩
  intro f hfmem
  rw [writeFrames_ok_spec env theme name (metricCode name) (dropnaRename raw)
    (sortedUniqueYears (dropnaRename raw)) r.frames hwf] at hfmem
  obtain ⟨yr, _, hfeq⟩ := List.mem_map.1 hfmem
  rw [← hfeq, hchart]
  rfl

/-- Witness for C7 with the Dark theme at the concrete environment. -/
theorem theme_scale_consistent_witness :
    (theRendered (processMetric envPak ("Dark") 2 (["PAK"]) gdpName).1).chart.scale
        = (if ("Dark" : String) = "Dark" then Viridis else Plasma) ∧
      (∀ f ∈ (theRendered (processMetric envPak ("Dark") 2 (["PAK"]) gdpName).1).frames,
        f.2.2.scale
          = (theRendered (processMetric envPak ("Dark") 2 (["PAK"]) gdpName).1).chart.scale) ∧
      Viridis ≠ Plasma :=
  theme_scale_consistent envPak ("Dark") 2 (["PAK"]) gdpName
    (theRendered (processMetric envPak ("Dark") 2 (["PAK"]) gdpName).1) rfl

/-- C8: the frame rate delivered by the fps slider is a single integer in
1..5, and a rendered section encodes its GIF and its MP4 at exactly that
rate. -/
theorem fps_bounded_and_shared (choice : Nat) (env : Env) (theme : String)
    (iso : List String) (name : String) (r : Rendered)
    (h : (processMetric env theme (st_slider 1 5 choice) iso name).1
        = MetricOutcome.rendered r) :
    1 ≤ st_slider 1 5 choice ∧ st_slider 1 5 choice ≤ 5 ∧
      r.gifFps = st_slider 1 5 choice ∧ r.mp4Fps = st_slider 1 5 choice := by
  obtain ⟨raw, _, _, _, _, hgif, hmp4, _⟩ :=
    processMetric_rendered_elim env theme (st_slider 1 5 choice) iso name r h
  exact ⟨le_max_left 1 _, max_le (by norm_num) (min_le_left 5 choice), hgif, hmp4⟩

/-- Witness for C8 with the default slider choice at the concrete
environment. -/
theorem fps_bounded_and_shared_witness :
    1 ≤ st_slider 1 5 2 ∧ st_slider 1 5 2 ≤ 5 ∧
      (theRendered (processMetric envPak ("Light") (st_slider 1 5 2) (["PAK"]) gdpName).1).gifFps
          = st_slider 1 5 2 ∧
      (theRendered (processMetric envPak ("Light") (st_slider 1 5 2) (["PAK"]) gdpName).1).mp4Fps
          = st_slider 1 5 2 :=
  fps_bounded_and_shared 2 envPak ("Light") (["PAK"]) gdpName
    (theRendered (processMetric envPak ("Light") (st_slider 1 5 2) (["PAK"]) gdpName).1) rfl

/-- Witness for C6 at a concrete two-row provider dataset. -/
theorem fetchTable_country_year_unique_witness :
    (([{ country := "Pakistan", year := 2000, value := some 5 },
       { country := "India", year := 2000, value := some 3 }] : List RawRow).Pairwise
        fun a b => ¬(a.country = b.country ∧ a.year = b.year)) ∧
      (fetchTable [{ country := "Pakistan", year := 2000, value := some 5 },
          { country := "India", year := 2000, value := some 3 }]
          ["Pakistan", "India"] 2000 2022).Pairwise
        (fun a b => ¬(a.Country = b.Country ∧ a.Year = b.Year)) :=
  ⟨by decide,
   fetchTable_country_year_unique _ ["Pakistan", "India"] 2000 2022 (by decide)⟩

/-- C9: every run hands the main body the purged scratch-directory contents
(the purge of lines 102-106 precedes the guard and the metric loop), and no
PNG, GIF or MP4 file survives the purge, so no artifact of a previous run is
in the directory when processing starts. -/
theorem scratch_purged_before_run (env : Env) (cs ms : List String)
    (theme : String) (fps : Nat) (fs : List String) :
    mainRun env cs ms theme fps fs
        = mainBody env cs ms theme fps (cleanupFrameDir fs) ∧
      ∀ f ∈ cleanupFrameDir fs, isArtifactFile f = false := by
  refine ⟨rfl, fun f hf => ?_⟩
  simp only [cleanupFrameDir, List.mem_filter, Bool.not_eq_true'] at hf
  exact hf.2

/-- Witness for C9: a stale upper-case PNG is purged while a text file
survives. -/
theorem scratch_purged_before_run_witness :
    mainRun envPak (["Pakistan"]) ([gdpName]) ("Light") 2
          (["frame/old.PNG", "notes.txt"])
        = mainBody envPak (["Pakistan"]) ([gdpName]) ("Light") 2
            (cleanupFrameDir (["frame/old.PNG", "notes.txt"])) ∧
      isArtifactFile ("notes.txt") = false :=
  ⟨(scratch_purged_before_run envPak (["Pakistan"]) ([gdpName]) ("Light") 2
      (["frame/old.PNG", "notes.txt"])).1,
   (scratch_purged_before_run envPak (["Pakistan"]) ([gdpName]) ("Light") 2
      (["frame/old.PNG", "notes.txt"])).2 ("notes.txt") (by decide)⟩

/-- C10: with an empty country selection or an empty metric selection the run
produces exactly the single warning of line 110, independent of the
environment — so no fetch and no rendering happens — and leaves the scratch
directory exactly as the purge left it, writing nothing. -/
theorem empty_selection_guard (env : Env) (cs ms : List String)
    (theme : String) (fps : Nat) (fs : List String) (h : cs = [] ∨ ms = []) :
    mainRun env cs ms theme fps fs
      = ([MetricOutcome.warning
            ("Please select at least one country and one metric.")],
          cleanupFrameDir fs) := by
  rw [mainRun, mainBody, if_pos h]

/-- Witness for C10 with no metric selected. -/
theorem empty_selection_guard_witness :
    mainRun envPak (["Pakistan"]) [] ("Light") 2 (["frame/old.png"])
      = ([MetricOutcome.warning
            ("Please select at least one country and one metric.")],
          cleanupFrameDir (["frame/old.png"])) :=
  empty_selection_guard envPak (["Pakistan"]) [] ("Light") 2 (["frame/old.png"])
    (Or.inr rfl)

end GeoDashboard
